import Mathlib

/-
Verification of the checkip batch TCP-reachability prober.

The development shallowly embeds the three Go variants of the tool:
  * the full variant (ServerInfo / CheckResult / Config, checkConnectivity with
    a retry loop, parseAllConfigFiles that skips bad files, main with a
    buffered result channel and a summary) — suffix 2 or no suffix below;
  * the checkip3.go variant (no retries, parseAllConfigFiles that aborts on the
    first bad file, unbuffered result channel, drain loop that returns on a
    log-write error) — suffix 3 below.

External effects (DNS, TCP dial, the clock, cancellation, the directory
listing, file parsing, log writes) are supplied as explicit oracle
parameters, so every definition is executable.  The probe additionally
returns a ProbeTrace counting the dials, waits and DNS lookups it performed,
and a Go panic is modelled by returning none.
-/

namespace Checkip

/-! ## Data model (part_000 lines 225-258) -/

/-- ServerInfo: one target to probe (Go struct ServerInfo). -/
structure ServerInfo where
  appName : String
  serverIP : String
  serverID : Int
  serverPort : Int
  deriving DecidableEq, Repr

/-- CheckResult: the result of one probe (Go struct CheckResult).
Durations and times are in nanoseconds. -/
structure CheckResult where
  serverInfo : ServerInfo
  isSuccess : Bool
  error : String
  checkTime : Nat
  duration : Nat
  deriving DecidableEq, Repr

/-- Config: process-wide probe policy (Go struct Config). -/
structure Config where
  timeout : Nat
  concurrentLimit : Int
  retryCount : Int
  retryDelay : Nat
  deriving DecidableEq, Repr

/-- DefaultConfig (part_000 lines 251-258). -/
def DefaultConfig : Config :=
  { timeout := 5000000000
    concurrentLimit := 10
    retryCount := 3
    retryDelay := 1000000000 }

/-! ## Environment oracles -/

/-- Outcome of one net.DialTimeout call: whether it succeeded, the error text
when it failed, and the elapsed wall-clock time of the call. -/
structure DialOutcome where
  ok : Bool
  err : String
  dur : Nat
  deriving DecidableEq, Repr

/-- The external world a probe interacts with: the clock, the DNS resolver
(net.LookupIP: an error or the returned address list), the dialer (keyed by
the dialed address string and the retry-loop index), and whether ctx.Done()
fires during the retry-delay wait of a given loop iteration. -/
structure Env where
  now : Nat
  lookupIP : String → Except String (List String)
  dial : String → Nat → DialOutcome
  cancelDuringWait : Nat → Bool

/-- Instrumentation counters for one checkConnectivity call: connect attempts
executed, retry-delay waits completed, and DNS lookups performed. -/
structure ProbeTrace where
  dials : Nat
  waits : Nat
  lookups : Nat
  deriving DecidableEq, Repr

/-! ## Resolver (part_000 lines 352-361; part_001 lines 27-38) -/

/-- strings.Contains(s, ".") from the Go source, over the string's
character list. -/
def containsDot (s : String) : Bool :=
  s.data.any (fun c => c == '.')

/-- Outcome of the resolution prefix of checkConnectivity.  `pass` means the
host was used unchanged with no lookup; `resolved` means net.LookupIP was
called and its first address taken; `failed` is a lookup error (the probe
returns at once with this message); `panicked` is the index-out-of-range
panic of ips[0] on an empty address list. -/
inductive ResolveOutcome where
  | pass (ip : String)
  | resolved (ip : String)
  | failed (msg : String)
  | panicked
  deriving DecidableEq, Repr

/-- Lines 352-361 of part_000: if the host does not contain a dot, call
net.LookupIP and take the first address; otherwise use the host unchanged. -/
def resolveHost (lookupIP : String → Except String (List String))
    (host : String) : ResolveOutcome :=
  if containsDot host then ResolveOutcome.pass host
  else
    match lookupIP host with
    | Except.error e => ResolveOutcome.failed ("DNS解析失败: " ++ e)
    | Except.ok [] => ResolveOutcome.panicked
    | Except.ok (ip :: _) => ResolveOutcome.resolved ip

/-- fmt.Sprintf("%s:%d", ip, info.ServerPort). -/
def dialAddr (ip : String) (port : Int) : String :=
  ip ++ ":" ++ toString port

/-! ## Prober (part_000 lines 363-387)

The retry loop `for i := 0; i < config.RetryCount; i++`.  `remaining` is the
number of iterations left, `i` the Go loop counter, `lastErr` the Go variable
of the same name and `result` the partially filled CheckResult.  After the
loop the Go code evaluates `lastErr.Error()`; when lastErr is still nil this
is a nil-pointer dereference, modelled by the probe returning `none`. -/

/-- One execution of the retry loop of checkConnectivity, instrumented with a
ProbeTrace. -/
def connectLoopT (env : Env) (addr : String) :
    Nat → Nat → Option String → CheckResult → Option CheckResult × ProbeTrace
  | _, 0, none, _ => (none, ⟨0, 0, 0⟩)
  | _, 0, some e, result => (some { result with error := e }, ⟨0, 0, 0⟩)
  | i, remaining + 1, _, result =>
    if decide (0 < i) && env.cancelDuringWait i then
      (some { result with error := "操作被取消" }, ⟨0, 0, 0⟩)
    else
      let w : Nat := if 0 < i then 1 else 0
      let d := env.dial addr i
      let result2 := { result with duration := d.dur }
      if d.ok then
        (some { result2 with isSuccess := true }, ⟨1, w, 0⟩)
      else
        let r := connectLoopT env addr (i + 1) remaining (some d.err) result2
        (r.fst, ⟨r.snd.dials + 1, r.snd.waits + w, r.snd.lookups⟩)

/-- checkConnectivity (part_000 lines 346-388), instrumented with a
ProbeTrace.  `none` models a runtime panic. -/
def checkConnectivityT (env : Env) (info : ServerInfo) (config : Config) :
    Option CheckResult × ProbeTrace :=
  let result : CheckResult :=
    { serverInfo := info, isSuccess := false, error := ""
      checkTime := env.now, duration := 0 }
  match resolveHost env.lookupIP info.serverIP with
  | ResolveOutcome.pass ip =>
    connectLoopT env (dialAddr ip info.serverPort) 0 config.retryCount.toNat none result
  | ResolveOutcome.resolved ip =>
    let r := connectLoopT env (dialAddr ip info.serverPort) 0 config.retryCount.toNat none result
    (r.fst, { r.snd with lookups := r.snd.lookups + 1 })
  | ResolveOutcome.failed msg => (some { result with error := msg }, ⟨0, 0, 1⟩)
  | ResolveOutcome.panicked => (none, ⟨0, 0, 1⟩)

/-- checkConnectivity without the instrumentation. -/
def checkConnectivity (env : Env) (info : ServerInfo) (config : Config) :
    Option CheckResult :=
  (checkConnectivityT env info config).fst

/-! ## A numeric dotted-quad IP literal, from the spec's words

Modelled from the spec: section 4.1 speaks of a host that "is already a
dotted/numeric IP"; the code itself only ever tests for the presence of a
dot.  This definition follows the spec's words and exists only to be
compared with the code's test. -/

/-- Split a character list at every dot. -/
def splitOnDot : List Char → List (List Char)
  | [] => [[]]
  | c :: rest =>
    let r := splitOnDot rest
    if c == '.' then [] :: r
    else
      match r with
      | [] => [[c]]
      | p :: ps => (c :: p) :: ps

/-- All characters are decimal digits. -/
def allDigits : List Char → Bool
  | [] => true
  | c :: r => c.isDigit && allDigits r

/-- Decimal value of a digit list, accumulator style. -/
def digitsVal (acc : Nat) : List Char → Nat
  | [] => acc
  | c :: r => digitsVal (acc * 10 + (c.toNat - 48)) r

/-- Modelled from the spec: a dotted/numeric IPv4 literal — four dot-separated
non-empty all-digit groups, each at most 255. -/
def isNumericIPLiteral (s : String) : Bool :=
  let parts := splitOnDot s.data
  decide (parts.length = 4) &&
    parts.all (fun p => !p.isEmpty && allDigits p && decide (digitsVal 0 p ≤ 255))

/-! ## Aggregator (part_000 lines 462-486) -/

/-- The success/failure tallies of the drain loop of part_000's main
(lines 463-470): one result consumed per channel receive. -/
def countResults : List CheckResult → Nat × Nat
  | [] => (0, 0)
  | r :: rest =>
    let c := countResults rest
    if r.isSuccess then (c.fst + 1, c.snd) else (c.fst, c.snd + 1)

/-- The final summary block (part_000 lines 478-483): total is
len(serverInfos), success and fail are the drain-loop tallies. -/
structure Summary where
  total : Nat
  success : Nat
  fail : Nat
  deriving DecidableEq, Repr

/-- The summary part_000's main emits, given the parsed records and the
results in their arrival order on the channel. -/
def runSummary (records : List ServerInfo) (emitted : List CheckResult) : Summary :=
  Summary.mk records.length (countResults emitted).fst (countResults emitted).snd

/-! ## Config-directory parsing (part_000 lines 316-343; checkip3.go
lines 23-46)

os.ReadDir and the per-file parser are oracle parameters: `readDir` is the
directory listing or its error, and `parseFile` maps a file path to the
records parseServerInfo yields for it, or a parse error. -/

/-- One os.DirEntry. -/
structure FileEntry where
  name : String
  isDir : Bool
  deriving DecidableEq, Repr

def confSuffix : String := ".conf"

/-- strings.HasSuffix(name, ".conf"). -/
def hasSuffixConf (s : String) : Bool :=
  List.isSuffixOf confSuffix.data s.data

/-- The entry loop of part_000's parseAllConfigFiles (lines 324-336): skip
directories and non-.conf entries; on a parse error print a warning
(counted in the second component) and continue; otherwise append the file's
records. -/
def collectInfos2 (folderPath : String)
    (parseFile : String → Except String (List ServerInfo)) :
    List FileEntry → List ServerInfo × Nat
  | [] => ([], 0)
  | e :: rest =>
    if e.isDir || !(hasSuffixConf e.name) then collectInfos2 folderPath parseFile rest
    else
      match parseFile (folderPath ++ "/" ++ e.name) with
      | Except.error _ =>
        let r := collectInfos2 folderPath parseFile rest
        (r.fst, r.snd + 1)
      | Except.ok infos =>
        let r := collectInfos2 folderPath parseFile rest
        (infos ++ r.fst, r.snd)

/-- parseAllConfigFiles of part_000 (lines 317-343): error when the directory
is unreadable or when zero records were collected; the second component
counts the per-file warnings printed. -/
def parseAllConfigFiles2 (folderPath : String)
    (readDir : Except String (List FileEntry))
    (parseFile : String → Except String (List ServerInfo)) :
    Except String (List ServerInfo) × Nat :=
  match readDir with
  | Except.error e => (Except.error ("读取目录失败 " ++ folderPath ++ ": " ++ e), 0)
  | Except.ok entries =>
    let r := collectInfos2 folderPath parseFile entries
    if r.fst.isEmpty then
      (Except.error ("未在目录 " ++ folderPath ++ " 中找到有效的配置"), r.snd)
    else (Except.ok r.fst, r.snd)

/-- Modelled from the spec: "the union of all successfully parsed records" —
the concatenation, in directory order, of the records of every .conf file
that parses successfully. -/
def validRecordsUnion (folderPath : String)
    (parseFile : String → Except String (List ServerInfo)) :
    List FileEntry → List ServerInfo
  | [] => []
  | e :: rest =>
    (if e.isDir || !(hasSuffixConf e.name) then []
     else
       match parseFile (folderPath ++ "/" ++ e.name) with
       | Except.ok l => l
       | Except.error _ => []) ++ validRecordsUnion folderPath parseFile rest

/-- The entry loop of checkip3.go's parseAllConfigFiles (lines 31-43): the
first parse error aborts the whole function. -/
def collectInfos3 (folderPath : String)
    (parseFile : String → Except String (List ServerInfo)) :
    List FileEntry → Except String (List ServerInfo)
  | [] => Except.ok []
  | e :: rest =>
    if e.isDir || !(hasSuffixConf e.name) then collectInfos3 folderPath parseFile rest
    else
      match parseFile (folderPath ++ "/" ++ e.name) with
      | Except.error err =>
        Except.error ("error parsing file " ++ folderPath ++ "/" ++ e.name ++ ": " ++ err)
      | Except.ok infos =>
        match collectInfos3 folderPath parseFile rest with
        | Except.error err => Except.error err
        | Except.ok more => Except.ok (infos ++ more)

/-- parseAllConfigFiles of checkip3.go (lines 23-46): no warning path and no
zero-record check. -/
def parseAllConfigFiles3 (folderPath : String)
    (readDir : Except String (List FileEntry))
    (parseFile : String → Except String (List ServerInfo)) :
    Except String (List ServerInfo) :=
  match readDir with
  | Except.error e => Except.error ("failed to read directory: " ++ e)
  | Except.ok entries => collectInfos3 folderPath parseFile entries

/-! ## The two drain loops

`writeOk k` tells whether the k-th fmt.Fprintln to the log file succeeds.
Each loop returns (results fully processed, write-error console messages
printed). -/

/-- part_000's drain loop (lines 464-474): the error value of the log write
is discarded, so every received result is printed and counted and no
write-error message is ever produced. -/
def drainLoop2 (writeOk : Nat → Bool) : Nat → List CheckResult → Nat × Nat
  | _, [] => (0, 0)
  | k, _ :: rest =>
    let c := drainLoop2 writeOk (k + 1) rest
    (c.fst + 1, c.snd)

/-- checkip3.go's drain loop (lines 92-98 and equally lines 108-115 of the
part_001 variant's main): on a log-write error it prints one console error
message and returns, leaving the rest of the stream unconsumed. -/
def drainLoop3 (writeOk : Nat → Bool) : Nat → List String → Nat × Nat
  | _, [] => (0, 0)
  | k, _ :: rest =>
    if writeOk k then
      let c := drainLoop3 writeOk (k + 1) rest
      (c.fst + 1, c.snd)
    else (1, 1)

/-! ## part_000's main (lines 406-487) -/

/-- How a run of part_000's main ends.  Go's main returns normally on every
path, so the process exit status is 0 except when a goroutine panics
(Go runtime exit status 2). -/
inductive MainOutcome where
  | usageShown
  | parseFailed (msg : String)
  | logCreateFailed (msg : String)
  | panicked
  | completed (s : Summary)
  deriving DecidableEq, Repr

/-- part_000's main: argument check (line 407), config-directory parse
(line 417), log-file creation (line 425), one checkConnectivity per record
with DefaultConfig (lines 444-454), tally and summary (lines 462-483).
Returns (outcome, process exit status, probes executed). -/
def runMain2 (args : List String) (readDir : Except String (List FileEntry))
    (parseFile : String → Except String (List ServerInfo))
    (logCreate : Except String Unit) (env : Env) :
    MainOutcome × Nat × Nat :=
  if args.length < 2 then (MainOutcome.usageShown, 0, 0)
  else
    match (parseAllConfigFiles2 (args.getD 1 "") readDir parseFile).fst with
    | Except.error e => (MainOutcome.parseFailed e, 0, 0)
    | Except.ok infos =>
      match logCreate with
      | Except.error e => (MainOutcome.logCreateFailed e, 0, 0)
      | Except.ok _ =>
        let results := infos.map fun info => checkConnectivity env info DefaultConfig
        if results.any Option.isNone then (MainOutcome.panicked, 2, infos.length)
        else
          let emitted := results.filterMap id
          let c := countResults emitted
          (MainOutcome.completed (Summary.mk infos.length c.fst c.snd), 0, infos.length)

/-! ## Scheduler of part_000's main as a transition system (lines 436-460)

Each goroutine (lines 446-453) moves through the program points
  atStart      — spawned, before `semaphore <- struct{}{}`
  inProbe      — slot acquired, running checkConnectivity up to the send
  afterSend    — result sent on the buffered channel, deferred release pending
  afterRelease — slot released, deferred wg.Done pending
  finished     — wg.Done executed.
The state counts the goroutines at each point (they are symmetric), the
results sent, and whether the watcher (lines 457-460) has closed the
channel.  The result channel is buffered with capacity n (line 437), so a
send never blocks. -/

structure SchedState where
  atStart : Nat
  inProbe : Nat
  afterSend : Nat
  afterRelease : Nat
  finished : Nat
  resultsSent : Nat
  closed : Bool
  deriving DecidableEq, Repr

/-- All n goroutines spawned (the dispatch loop, lines 444-454, never
blocks), channel open, no result sent. -/
def schedInit (n : Nat) : SchedState :=
  ⟨n, 0, 0, 0, 0, 0, false⟩

/-- One scheduler step with semaphore capacity `limit` (line 438) and n
launched goroutines. -/
inductive SchedStep (limit n : Nat) : SchedState → SchedState → Prop where
  | acquire (s : SchedState) (h1 : 0 < s.atStart)
      (h2 : s.inProbe + s.afterSend < limit) :
      SchedStep limit n s
        { s with atStart := s.atStart - 1, inProbe := s.inProbe + 1 }
  | send (s : SchedState) (h : 0 < s.inProbe) :
      SchedStep limit n s
        { s with inProbe := s.inProbe - 1, afterSend := s.afterSend + 1,
                 resultsSent := s.resultsSent + 1 }
  | release (s : SchedState) (h : 0 < s.afterSend) :
      SchedStep limit n s
        { s with afterSend := s.afterSend - 1, afterRelease := s.afterRelease + 1 }
  | wgdone (s : SchedState) (h : 0 < s.afterRelease) :
      SchedStep limit n s
        { s with afterRelease := s.afterRelease - 1, finished := s.finished + 1 }
  | closeCh (s : SchedState) (h1 : s.finished = n) (h2 : s.closed = false) :
      SchedStep limit n s { s with closed := true }

/-- The inductive invariant of the part_000 scheduler. -/
def schedInv (limit n : Nat) (s : SchedState) : Prop :=
  s.atStart + s.inProbe + s.afterSend + s.afterRelease + s.finished = n ∧
  s.inProbe + s.afterSend ≤ limit ∧
  s.resultsSent = s.afterSend + s.afterRelease + s.finished ∧
  (s.closed = true → s.finished = n)

/-! ## Scheduler of checkip3.go's main as a transition system (lines 61-99)

checkip3 acquires the semaphore in the dispatch loop itself (line 79) and
uses an unbuffered result channel (line 62), which main only starts draining
after the dispatch loop has ended.  A dispatch step covers wg.Add, the
acquire, the spawn and the probe running up to its blocked send; a deliver
step is the rendezvous of that send with a receive of the drain loop,
followed by the goroutine's deferred release and wg.Done. -/

inductive MainLoc where
  | dispatching
  | draining
  deriving DecidableEq, Repr

structure Pool3State where
  toDispatch : Nat
  mainLoc : MainLoc
  sem : Nat
  waitSend : Nat
  gdone : Nat
  received : Nat
  closed : Bool
  deriving DecidableEq, Repr

def pool3Init (n : Nat) : Pool3State :=
  ⟨n, MainLoc.dispatching, 0, 0, 0, 0, false⟩

inductive Pool3Step (limit n : Nat) : Pool3State → Pool3State → Prop where
  | dispatch (s : Pool3State) (h1 : s.mainLoc = MainLoc.dispatching)
      (h2 : 0 < s.toDispatch) (h3 : s.sem < limit) :
      Pool3Step limit n s
        { s with toDispatch := s.toDispatch - 1, sem := s.sem + 1,
                 waitSend := s.waitSend + 1 }
  | beginDrain (s : Pool3State) (h1 : s.mainLoc = MainLoc.dispatching)
      (h2 : s.toDispatch = 0) :
      Pool3Step limit n s { s with mainLoc := MainLoc.draining }
  | deliver (s : Pool3State) (h1 : s.mainLoc = MainLoc.draining)
      (h2 : 0 < s.waitSend) (h3 : s.closed = false) :
      Pool3Step limit n s
        { s with waitSend := s.waitSend - 1, sem := s.sem - 1,
                 gdone := s.gdone + 1, received := s.received + 1 }
  | closeCh (s : Pool3State) (h1 : s.gdone = n) (h2 : s.toDispatch = 0)
      (h3 : s.closed = false) :
      Pool3Step limit n s { s with closed := true }

/-- No transition of the checkip3 pool is enabled in s. -/
def pool3Stuck (limit n : Nat) (s : Pool3State) : Prop :=
  ¬(s.mainLoc = MainLoc.dispatching ∧ 0 < s.toDispatch ∧ s.sem < limit) ∧
  ¬(s.mainLoc = MainLoc.dispatching ∧ s.toDispatch = 0) ∧
  ¬(s.mainLoc = MainLoc.draining ∧ 0 < s.waitSend ∧ s.closed = false) ∧
  ¬(s.gdone = n ∧ s.toDispatch = 0 ∧ s.closed = false)

instance (limit n : Nat) (s : Pool3State) : Decidable (pool3Stuck limit n s) := by
  unfold pool3Stuck; infer_instance

/-! ## Concrete fixtures for witnesses and counterexamples -/

def hostDotted : String := "10.0.0.1"
def hostNoDot : String := "myhost"
def hostExample : String := "example.com"
def dnsErrMsg : String := "no such host"
def refusedMsg : String := "connection refused"
def exampleAddr : String := "93.184.216.34"

def infoW : ServerInfo :=
  { appName := "app", serverIP := hostDotted, serverID := 1, serverPort := 80 }

def infoNoDot : ServerInfo :=
  { infoW with serverIP := hostNoDot }

def lookupFailFix : String → Except String (List String) :=
  fun _ => Except.error dnsErrMsg

def lookupExample : String → Except String (List String) :=
  fun _ => Except.ok [exampleAddr]

def dialOkFix : String → Nat → DialOutcome :=
  fun _ _ => ⟨true, "", 5⟩

def dialFailFix : String → Nat → DialOutcome :=
  fun _ i => ⟨false, refusedMsg, i + 3⟩

def noCancel : Nat → Bool :=
  fun _ => false

def envOkDial : Env := ⟨0, lookupFailFix, dialOkFix, noCancel⟩

def envFailDial : Env := ⟨0, lookupFailFix, dialFailFix, noCancel⟩

/-- DefaultConfig with RetryCount set to 0. -/
def cfgRetryZero : Config := { DefaultConfig with retryCount := 0 }

def alwaysFailWrite : Nat → Bool := fun _ => false

def lineA : String := "a"
def lineB : String := "b"

def dirD : String := "d"
def goodConfName : String := "good.conf"
def badConfName : String := "bad.conf"
def parseBoomMsg : String := "boom"

def entriesGoodBad : List FileEntry :=
  [⟨goodConfName, false⟩, ⟨badConfName, false⟩]

def pfGoodBad : String → Except String (List ServerInfo) :=
  fun p => if p == dirD ++ "/" ++ goodConfName then Except.ok [infoW]
           else Except.error parseBoomMsg

def progName : String := "./program"

/-- The deadlocked checkip3 pool state reached from pool3Init 2 with
concurrency limit 1 after one dispatch step. -/
def pool3Dead : Pool3State :=
  ⟨1, MainLoc.dispatching, 1, 1, 0, 0, false⟩

/-- The result of probing infoW through envFailDial with DefaultConfig:
three failing attempts, last error kept, duration of the last attempt. -/
def resFail3 : CheckResult :=
  ⟨infoW, false, refusedMsg, 0, 5⟩

/-- The result of probing infoW through envOkDial with DefaultConfig. -/
def resOkW : CheckResult :=
  ⟨infoW, true, "", 0, 5⟩

/-- A probe-outcome oracle used in witnesses. -/
def probeOfW : ServerInfo → CheckResult := fun _ => resOkW

/-- The part_000 scheduler state after one acquire step from schedInit 1. -/
def schedAfterAcquire : SchedState := ⟨0, 1, 0, 0, 0, 0, false⟩

/-! ## Helper lemmas -/

/-- The two tallies of the drain loop sum to the number of results drained. -/
theorem countResults_sum (rs : List CheckResult) :
    (countResults rs).fst + (countResults rs).snd = rs.length := by
  induction rs with
  | nil => rfl
  | cons r rest ih =>
    by_cases h : r.isSuccess <;> simp [countResults, h] <;> omega

/-! ## C1 -/

/-- C1: for every non-empty record list, a run of part_000's main emits
exactly one CheckResult per input record — the channel delivers the
per-record results in some arrival order — and the summary reports
total = number of input records = success count + failure count. -/
theorem one_result_per_record_and_summary_consistent
    (env : Env) (config : Config) (records : List ServerInfo)
    (probeOf : ServerInfo → CheckResult) (emitted : List CheckResult)
    (hne : records ≠ [])
    (hprobe : ∀ info ∈ records, checkConnectivity env info config = some (probeOf info))
    (hperm : List.Perm emitted (records.map probeOf)) :
    emitted.length = records.length ∧
    (runSummary records emitted).total = records.length ∧
    (runSummary records emitted).success + (runSummary records emitted).fail =
      records.length := by
  have hlen : emitted.length = records.length := by
    have := hperm.length_eq
    simpa using this
  refine ⟨hlen, rfl, ?_⟩
  have := countResults_sum emitted
  simpa [runSummary, hlen] using this

/-- C1 witness: one record probed through envOkDial. -/
theorem one_result_per_record_witness :
    ([resOkW] : List CheckResult).length = [infoW].length ∧
    (runSummary [infoW] [resOkW]).total = [infoW].length ∧
    (runSummary [infoW] [resOkW]).success + (runSummary [infoW] [resOkW]).fail =
      [infoW].length :=
  one_result_per_record_and_summary_consistent envOkDial DefaultConfig [infoW]
    probeOfW [resOkW] (by simp)
    (by intro info h; simp at h; subst h; rfl) (List.Perm.refl _)

/-! ## C3 -/

/-- C3 counterexample: the host example.com is not a numeric IP literal, yet
checkConnectivity returns it unchanged without consulting the resolver —
the code tests only for the presence of a dot, so dotted hostnames are
never resolved. -/
theorem dotted_hostname_not_resolved :
    isNumericIPLiteral hostExample = false ∧
    resolveHost lookupExample hostExample = ResolveOutcome.pass hostExample ∧
    resolveHost lookupExample hostExample ≠ ResolveOutcome.resolved exampleAddr := by
  exact ⟨by decide, rfl, by decide⟩

/-- C3 amended: the resolver performs a forward DNS lookup if and only if the
host string contains no dot: any host containing a dot (a numeric IP or a
dotted name such as example.com) is passed through unchanged with no
lookup, and a dotless host is resolved with the first returned address
used. -/
theorem lookup_iff_no_dot (f : String → Except String (List String)) (host : String) :
    (containsDot host = true → resolveHost f host = ResolveOutcome.pass host) ∧
    (containsDot host = false →
      (∀ e, f host = Except.error e →
        resolveHost f host = ResolveOutcome.failed ("DNS解析失败: " ++ e)) ∧
      (∀ ip rest, f host = Except.ok (ip :: rest) →
        resolveHost f host = ResolveOutcome.resolved ip)) := by
  refine ⟨fun h => by simp [resolveHost, h], fun h => ⟨?_, ?_⟩⟩
  · intro e he; simp [resolveHost, h, he]
  · intro ip rest he; simp [resolveHost, h, he]

/-- C3 witness: a dotless host with a failing lookup. -/
theorem lookup_iff_no_dot_witness :
    containsDot hostNoDot = false ∧
    resolveHost lookupFailFix hostNoDot =
      ResolveOutcome.failed ("DNS解析失败: " ++ dnsErrMsg) :=
  ⟨rfl, ((lookup_iff_no_dot lookupFailFix hostNoDot).2 rfl).1 dnsErrMsg rfl⟩

/-! ## C6 -/

/-- C6: when Config.RetryCount is 0 or negative and host resolution does not
fail, the retry loop of checkConnectivity runs zero times, lastErr stays
nil, and lastErr.Error() dereferences a nil error — the probe panics
(modelled as none) instead of returning a CheckResult. -/
theorem retryCount_zero_panics (env : Env) (info : ServerInfo) (config : Config)
    (hrc : config.retryCount ≤ 0)
    (hres : resolveHost env.lookupIP info.serverIP = ResolveOutcome.pass info.serverIP ∨
            ∃ ip, resolveHost env.lookupIP info.serverIP = ResolveOutcome.resolved ip) :
    checkConnectivity env info config = none := by
  have h0 : config.retryCount.toNat = 0 := Int.toNat_of_nonpos hrc
  rcases hres with h | ⟨ip, h⟩ <;>
    simp [checkConnectivity, checkConnectivityT, h, h0, connectLoopT]

/-- C6 witness: RetryCount = 0, dotted host, dialer that would succeed. -/
theorem retryCount_zero_panics_witness :
    cfgRetryZero.retryCount ≤ 0 ∧ checkConnectivity envOkDial infoW cfgRetryZero = none :=
  ⟨by decide, retryCount_zero_panics envOkDial infoW cfgRetryZero (by decide) (Or.inl rfl)⟩

/-! ## C7 -/

/-- C7 counterexample: in checkip3.go's drain loop a failed log write makes
the loop return after the current result — of two pending results only one
is consumed, so the loop does not continue counting the remainder. -/
theorem drain3_stops_on_write_error :
    drainLoop3 alwaysFailWrite 0 [lineA, lineB] = (1, 1) ∧
    (drainLoop3 alwaysFailWrite 0 [lineA, lineB]).fst ≠ [lineA, lineB].length := by
  exact ⟨rfl, by decide⟩

/-- C7 amended: in part_000's main a failed log write is silently ignored —
every result is still consumed and counted but no console error message is
produced — while in checkip3.go's main a failed log write prints one
console error message and terminates the drain loop early. -/
theorem drain_write_error_behavior (writeOk : Nat → Bool) (k : Nat)
    (rs : List CheckResult) (s : String) (rest : List String) :
    drainLoop2 writeOk k rs = (rs.length, 0) ∧
    (writeOk k = false → drainLoop3 writeOk k (s :: rest) = (1, 1)) := by
  constructor
  · induction rs generalizing k with
    | nil => rfl
    | cons r rs ih => simp [drainLoop2, ih]
  · intro h; simp [drainLoop3, h]

/-- C7 witness: a sink whose every write fails. -/
theorem drain_write_error_behavior_witness :
    alwaysFailWrite 0 = false ∧
    drainLoop2 alwaysFailWrite 0 [resOkW, resFail3] = (2, 0) ∧
    drainLoop3 alwaysFailWrite 0 [lineA, lineB] = (1, 1) :=
  ⟨rfl, (drain_write_error_behavior alwaysFailWrite 0 [resOkW, resFail3] lineA [lineB]).1,
   (drain_write_error_behavior alwaysFailWrite 0 [resOkW, resFail3] lineA [lineB]).2 rfl⟩

/-! ## C8 -/

/-- part_000's per-file loop computes exactly the union of the records of the
successfully parsed .conf files. -/
theorem collectInfos2_fst_eq_union (fp : String)
    (pf : String → Except String (List ServerInfo)) (entries : List FileEntry) :
    (collectInfos2 fp pf entries).fst = validRecordsUnion fp pf entries := by
  induction entries with
  | nil => rfl
  | cons e rest ih =>
    by_cases h : e.isDir || !(hasSuffixConf e.name)
    · simp [collectInfos2, validRecordsUnion, h, ih]
    · cases hpe : pf (fp ++ "/" ++ e.name) <;>
        simp [collectInfos2, validRecordsUnion, h, hpe, ih]

/-- C8 counterexample: with one good and one malformed .conf file,
checkip3.go's parseAllConfigFiles aborts with the malformed file's error
instead of skipping it and returning the union of the remaining records. -/
theorem parse3_aborts_on_bad_file :
    parseAllConfigFiles3 dirD (Except.ok entriesGoodBad) pfGoodBad =
      Except.error ("error parsing file " ++ dirD ++ "/" ++ badConfName ++ ": " ++ parseBoomMsg) ∧
    parseAllConfigFiles3 dirD (Except.ok entriesGoodBad) pfGoodBad ≠
      Except.ok [infoW] := by
  refine ⟨rfl, ?_⟩
  intro h
  rw [show parseAllConfigFiles3 dirD (Except.ok entriesGoodBad) pfGoodBad =
      Except.error ("error parsing file " ++ dirD ++ "/" ++ badConfName ++ ": " ++ parseBoomMsg)
      from rfl] at h
  exact Except.noConfusion h

/-- C8 amended: part_000's parseAllConfigFiles skips any file that fails to
parse (surfacing one warning per such file), returns the union of the
records of all files that parse, and errors only when the directory is
unreadable or that union is empty; checkip3.go's variant instead aborts on
the first malformed .conf file and returns an empty record list without
error when no records are found. -/
theorem parse_skip_behavior (fp : String)
    (pf : String → Except String (List ServerInfo))
    (entries : List FileEntry) (e : String) (fe : FileEntry)
    (rest : List FileEntry) (perr : String) :
    ((parseAllConfigFiles2 fp (Except.ok entries) pf).fst =
       if (validRecordsUnion fp pf entries).isEmpty then
         Except.error ("未在目录 " ++ fp ++ " 中找到有效的配置")
       else Except.ok (validRecordsUnion fp pf entries)) ∧
    ((parseAllConfigFiles2 fp (Except.error e) pf).fst =
       Except.error ("读取目录失败 " ++ fp ++ ": " ++ e)) ∧
    (fe.isDir = false → hasSuffixConf fe.name = true →
      pf (fp ++ "/" ++ fe.name) = Except.error perr →
      parseAllConfigFiles3 fp (Except.ok (fe :: rest)) pf =
        Except.error ("error parsing file " ++ fp ++ "/" ++ fe.name ++ ": " ++ perr)) ∧
    (parseAllConfigFiles3 fp (Except.ok []) pf = Except.ok []) := by
  refine ⟨?_, rfl, ?_, rfl⟩
  · rw [parseAllConfigFiles2, collectInfos2_fst_eq_union]
    by_cases h : (validRecordsUnion fp pf entries).isEmpty <;> simp [h]
  · intro h1 h2 h3
    simp [parseAllConfigFiles3, collectInfos3, h1, h2, h3]

/-- C8 witness: the good/bad directory fixture. -/
theorem parse_skip_behavior_witness :
    (parseAllConfigFiles2 dirD (Except.ok entriesGoodBad) pfGoodBad).fst =
      Except.ok [infoW] ∧
    parseAllConfigFiles3 dirD (Except.ok [(⟨badConfName, false⟩ : FileEntry)]) pfGoodBad =
      Except.error ("error parsing file " ++ dirD ++ "/" ++ badConfName ++ ": " ++ parseBoomMsg) := by
  constructor
  · rw [(parse_skip_behavior dirD pfGoodBad entriesGoodBad dnsErrMsg
      ⟨badConfName, false⟩ [] parseBoomMsg).1]
    rfl
  · exact (parse_skip_behavior dirD pfGoodBad entriesGoodBad dnsErrMsg
      ⟨badConfName, false⟩ [] parseBoomMsg).2.2.1 rfl rfl rfl

/-! ## C9 -/

/-- A filterMap over an all-some function drops nothing. -/
theorem filterMap_length_of_isSome {α β : Type} (f : α → Option β) (l : List α)
    (h : ∀ x ∈ l, (f x).isSome = true) : (l.filterMap f).length = l.length := by
  induction l with
  | nil => rfl
  | cons x rest ih =>
    have hx := h x (by simp)
    cases hfx : f x with
    | none => rw [hfx] at hx; simp at hx
    | some a =>
      simp [List.filterMap_cons, hfx, ih fun y hy => h y (List.mem_cons_of_mem _ hy)]

/-- C9 counterexample: with the config-directory argument missing, part_000's
main prints the usage line and returns — the process exits with status 0,
not with a non-zero failure status. -/
theorem usage_exit_code_zero :
    runMain2 [progName] (Except.ok entriesGoodBad) pfGoodBad (Except.ok ()) envOkDial =
      (MainOutcome.usageShown, 0, 0) ∧
    (runMain2 [progName] (Except.ok entriesGoodBad) pfGoodBad (Except.ok ()) envOkDial).snd.fst
      = 0 := ⟨rfl, rfl⟩

/-- C9 amended: when the config-directory argument is missing the program
prints a usage message and exits with status 0 (not a failure status); when
parsing yields no valid records it prints the parse error and exits, again
with status 0, before any probing; otherwise it runs to completion, emits
the summary and exits 0. -/
theorem main_exit_paths (args : List String) (rd : Except String (List FileEntry))
    (pf : String → Except String (List ServerInfo)) (lc : Except String Unit) (env : Env) :
    (args.length < 2 →
      runMain2 args rd pf lc env = (MainOutcome.usageShown, 0, 0)) ∧
    (∀ e, 2 ≤ args.length →
      (parseAllConfigFiles2 (args.getD 1 "") rd pf).fst = Except.error e →
      runMain2 args rd pf lc env = (MainOutcome.parseFailed e, 0, 0)) ∧
    (∀ infos, 2 ≤ args.length →
      (parseAllConfigFiles2 (args.getD 1 "") rd pf).fst = Except.ok infos →
      lc = Except.ok () →
      (∀ info ∈ infos, (checkConnectivity env info DefaultConfig).isSome = true) →
      ∃ sc fc, sc + fc = infos.length ∧
        runMain2 args rd pf lc env =
          (MainOutcome.completed (Summary.mk infos.length sc fc), 0, infos.length)) := by
  refine ⟨fun h => by simp [runMain2, h], fun e h2 hp => ?_, fun infos h2 hp hlc hall => ?_⟩
  · have hp' : (parseAllConfigFiles2 (args[1]?.getD "") rd pf).fst = Except.error e := by
      rw [List.getD_eq_getElem?_getD] at hp; exact hp
    simp [runMain2, Nat.not_lt.mpr h2, hp']
  · have hp' : (parseAllConfigFiles2 (args[1]?.getD "") rd pf).fst = Except.ok infos := by
      rw [List.getD_eq_getElem?_getD] at hp; exact hp
    have hnone : ¬ ∃ a ∈ infos, checkConnectivity env a DefaultConfig = none := by
      rintro ⟨a, hmem, hccnone⟩
      have hsome := hall a hmem
      rw [hccnone] at hsome
      simp at hsome
    refine ⟨(countResults (infos.filterMap fun info =>
        checkConnectivity env info DefaultConfig)).fst,
      (countResults (infos.filterMap fun info =>
        checkConnectivity env info DefaultConfig)).snd, ?_, ?_⟩
    · rw [countResults_sum, filterMap_length_of_isSome _ _ hall]
    · simp [runMain2, Nat.not_lt.mpr h2, hp', hlc, hnone]

/-- C9 witness: the parse-error path with an unreadable directory. -/
theorem main_exit_paths_witness :
    (2 : Nat) ≤ [progName, dirD].length ∧
    runMain2 [progName, dirD] (Except.error dnsErrMsg) pfGoodBad (Except.ok ()) envOkDial =
      (MainOutcome.parseFailed ("读取目录失败 " ++ dirD ++ ": " ++ dnsErrMsg), 0, 0) :=
  ⟨by decide,
   (main_exit_paths [progName, dirD] (Except.error dnsErrMsg) pfGoodBad
      (Except.ok ()) envOkDial).2.1
     ("读取目录失败 " ++ dirD ++ ": " ++ dnsErrMsg) (by decide) rfl⟩

/-! ## Loop lemmas for the prober -/

/-- The retry loop never performs a DNS lookup. -/
theorem connectLoopT_lookups_zero (env : Env) (addr : String) :
    ∀ remaining i lastErr result,
      (connectLoopT env addr i remaining lastErr result).snd.lookups = 0 := by
  intro remaining
  induction remaining with
  | zero =>
    intro i lastErr result
    cases lastErr <;> rfl
  | succ rem ih =>
    intro i lastErr result
    simp only [connectLoopT]
    by_cases hc : (decide (0 < i) && env.cancelDuringWait i) = true
    · simp [hc]
    · simp only [Bool.not_eq_true] at hc
      simp only [hc, Bool.false_eq_true, if_false]
      by_cases hd : (env.dial addr i).ok = true
      · simp [hd]
      · simp only [Bool.not_eq_true] at hd
        simp [hd, ih]

/-- When every dial fails and cancellation never fires, the loop runs all its
iterations, keeps the last error and the last attempt's duration, and
completes one wait per iteration after the first. -/
theorem connectLoopT_allFail (env : Env) (addr : String)
    (hfail : ∀ i, (env.dial addr i).ok = false)
    (hcancel : ∀ i, env.cancelDuringWait i = false) :
    ∀ remaining i lastErr result, 0 < remaining →
      connectLoopT env addr i remaining lastErr result =
        (some { result with
                  error := (env.dial addr (i + remaining - 1)).err,
                  duration := (env.dial addr (i + remaining - 1)).dur },
         ⟨remaining, remaining - (if i = 0 then 1 else 0), 0⟩) := by
  intro remaining
  induction remaining with
  | zero => intro i lastErr result h; omega
  | succ rem ih =>
    intro i lastErr result _
    obtain ⟨si, su, er, ct, du⟩ := result
    simp only [connectLoopT, hcancel, Bool.and_false, Bool.false_eq_true, if_false,
      hfail]
    by_cases hrem : 0 < rem
    · rw [ih (i + 1) (some (env.dial addr i).err) _ hrem]
      have hidx : i + 1 + rem - 1 = i + (rem + 1) - 1 := by omega
      rw [hidx]
      by_cases hi : i = 0 <;> simp [hi]
    · have hrem0 : rem = 0 := by omega
      subst hrem0
      simp only [connectLoopT]
      have hidx : i + 0 = i + (0 + 1) - 1 := by omega
      by_cases hi : i = 0 <;> simp [hi]

/-- When every dial fails and cancellation first fires during the wait before
iteration j, the loop returns the cancelled result, having dialed
iterations i..j-1 with their durations recorded. -/
theorem connectLoopT_cancelAt (env : Env) (addr : String) (j : Nat)
    (hfail : ∀ i, (env.dial addr i).ok = false)
    (hj : env.cancelDuringWait j = true)
    (hbefore : ∀ i, i < j → env.cancelDuringWait i = false) :
    ∀ remaining i lastErr result, 0 < i → i ≤ j → j < i + remaining →
      connectLoopT env addr i remaining lastErr result =
        (some { result with
                  error := "操作被取消",
                  duration := if i = j then result.duration
                              else (env.dial addr (j - 1)).dur },
         ⟨j - i, j - i, 0⟩) := by
  intro remaining
  induction remaining with
  | zero => intro i lastErr result h1 h2 h3; omega
  | succ rem ih =>
    intro i lastErr result h1 h2 h3
    obtain ⟨si, su, er, ct, du⟩ := result
    by_cases hij : i = j
    · subst hij
      have : (decide (0 < i) && env.cancelDuringWait i) = true := by
        simp [decide_eq_true h1, hj]
      simp [connectLoopT, this]
    · have hilt : i < j := by omega
      have hci : env.cancelDuringWait i = false := hbefore i hilt
      simp only [connectLoopT, hci, Bool.and_false, Bool.false_eq_true, if_false, hfail]
      rw [ih (i + 1) (some (env.dial addr i).err) _ (by omega) (by omega) (by omega)]
      by_cases hij1 : i + 1 = j
      · have hji : j - 1 = i := by omega
        simp [hij1, hji, hij]
        rw [if_pos h1]
        omega
      · simp [hij1, hij]
        rw [if_pos h1]
        omega

/-- The duration of a returned result is the initial duration when no dial
ran, and the duration of the last executed dial otherwise. -/
theorem connectLoopT_duration (env : Env) (addr : String) :
    ∀ remaining i lastErr result cr t,
      connectLoopT env addr i remaining lastErr result = (some cr, t) →
      (t.dials = 0 → cr.duration = result.duration) ∧
      (∀ k, t.dials = k + 1 → cr.duration = (env.dial addr (i + k)).dur) := by
  intro remaining
  induction remaining with
  | zero =>
    intro i lastErr result cr t h
    cases lastErr with
    | none => simp [connectLoopT] at h
    | some e =>
      simp only [connectLoopT, Prod.mk.injEq, Option.some.injEq] at h
      obtain ⟨hcr, ht⟩ := h
      subst hcr; subst ht
      exact ⟨fun _ => rfl, fun k hk => by simp at hk⟩
  | succ rem ih =>
    intro i lastErr result cr t h
    by_cases hc : (decide (0 < i) && env.cancelDuringWait i) = true
    · simp only [connectLoopT, hc, if_true, Prod.mk.injEq, Option.some.injEq] at h
      obtain ⟨hcr, ht⟩ := h
      subst hcr; subst ht
      exact ⟨fun _ => rfl, fun k hk => by simp at hk⟩
    · simp only [Bool.not_eq_true] at hc
      by_cases hd : (env.dial addr i).ok = true
      · simp only [connectLoopT, hc, Bool.false_eq_true, if_false, hd, if_true,
          Prod.mk.injEq, Option.some.injEq] at h
        obtain ⟨hcr, ht⟩ := h
        subst hcr; subst ht
        refine ⟨fun h0 => by simp at h0, fun k hk => ?_⟩
        have hk0 : k = 0 := by simpa using hk.symm
        subst hk0
        rfl
      · simp only [Bool.not_eq_true] at hd
        simp only [connectLoopT, hc, Bool.false_eq_true, if_false, hd,
          Prod.mk.injEq] at h
        obtain ⟨hcr, ht⟩ := h
        cases hr : connectLoopT env addr (i + 1) rem
            (some (env.dial addr i).err) { result with duration := (env.dial addr i).dur } with
        | mk fstr sndr =>
          rw [hr] at hcr ht
          simp only at hcr ht
          cases fstr with
          | none => simp at hcr
          | some cr2 =>
            have hcr2 : cr2 = cr := by simpa using hcr
            have hih := ih (i + 1) (some (env.dial addr i).err)
              { result with duration := (env.dial addr i).dur } cr2 sndr hr
            rw [hcr2] at hih
            refine ⟨fun h0 => by rw [← ht] at h0; simp at h0, fun k hk => ?_⟩
            cases k with
            | zero =>
              have hd0 : sndr.dials = 0 := by
                rw [← ht] at hk; simp at hk; omega
              have := hih.1 hd0
              simpa using this
            | succ k2 =>
              have hd2 : sndr.dials = k2 + 1 := by
                rw [← ht] at hk; simp at hk; omega
              have := hih.2 k2 hd2
              have hidx : i + 1 + k2 = i + (k2 + 1) := by omega
              rw [hidx] at this
              exact this

/-- From the first loop iteration (i = 0, no cancellation point), with all
dials failing, a cancellation first firing during the wait before
iteration j aborts the probe after j dials and j - 1 completed waits. -/
theorem connectLoopT_cancelAt_start (env : Env) (addr : String) (j : Nat)
    (hfail : ∀ i, (env.dial addr i).ok = false)
    (hj : env.cancelDuringWait j = true)
    (hbefore : ∀ i, i < j → env.cancelDuringWait i = false)
    (remaining : Nat) (h0 : 0 < j) (hlt : j < remaining) (result : CheckResult) :
    connectLoopT env addr 0 remaining none result =
      (some { result with
                error := "操作被取消",
                duration := (env.dial addr (j - 1)).dur },
       ⟨j, j - 1, 0⟩) := by
  cases remaining with
  | zero => omega
  | succ m =>
    obtain ⟨si, su, er, ct, du⟩ := result
    have hdec : decide (0 < (0 : Nat)) = false := rfl
    simp only [connectLoopT, hdec, Bool.false_and, Bool.false_eq_true, if_false, hfail]
    rw [connectLoopT_cancelAt env addr j hfail hj hbefore m 1
      (some (env.dial addr 0).err) _ (by omega) (by omega) (by omega)]
    by_cases hj1 : 1 = j
    · have hj0 : j - 1 = 0 := by omega
      simp [hj1, hj0]
    · simp [hj1]
      omega

/-! ## C2 -/

/-- C2 counterexample: with retryCount = 0 the probe executes zero connect
attempts and then panics evaluating lastErr.Error(); it does not make one
attempt and it returns no CheckResult at all. -/
theorem retry_zero_not_one_attempt :
    checkConnectivityT envFailDial infoW cfgRetryZero = (none, ⟨0, 0, 0⟩) ∧
    (checkConnectivityT envFailDial infoW cfgRetryZero).snd.dials ≠ 1 := by
  exact ⟨rfl, by decide⟩

/-- C2 amended: when retryCount > 0 and every connect attempt fails, probe
returns success=false carrying the last observed error after exactly
retryCount connect attempts, completing one retryDelay wait before each
attempt after the first (retryCount − 1 waits when cancellation never
fires), and honoring cancellation: if the cancellation signal first fires
during the wait before attempt j, the probe stops with the cancelled error
after j attempts and j − 1 waits.  (When retryCount ≤ 0 the probe makes no
attempt and panics instead of returning a result.) -/
theorem probe_allFail_attempts (env : Env) (info : ServerInfo) (config : Config)
    (ip : String)
    (hres : resolveHost env.lookupIP info.serverIP = ResolveOutcome.pass ip ∨
            resolveHost env.lookupIP info.serverIP = ResolveOutcome.resolved ip)
    (hrc : 0 < config.retryCount)
    (hfail : ∀ i, (env.dial (dialAddr ip info.serverPort) i).ok = false) :
    ((∀ i, env.cancelDuringWait i = false) →
      (checkConnectivityT env info config).fst =
        some { serverInfo := info, isSuccess := false,
               error := (env.dial (dialAddr ip info.serverPort)
                          (config.retryCount.toNat - 1)).err,
               checkTime := env.now,
               duration := (env.dial (dialAddr ip info.serverPort)
                          (config.retryCount.toNat - 1)).dur } ∧
      (checkConnectivityT env info config).snd.dials = config.retryCount.toNat ∧
      (checkConnectivityT env info config).snd.waits = config.retryCount.toNat - 1) ∧
    (∀ j, 0 < j → j < config.retryCount.toNat →
      env.cancelDuringWait j = true →
      (∀ i, i < j → env.cancelDuringWait i = false) →
      (checkConnectivityT env info config).fst =
        some { serverInfo := info, isSuccess := false, error := "操作被取消",
               checkTime := env.now,
               duration := (env.dial (dialAddr ip info.serverPort) (j - 1)).dur } ∧
      (checkConnectivityT env info config).snd.dials = j ∧
      (checkConnectivityT env info config).snd.waits = j - 1) := by
  have htoNat : 0 < config.retryCount.toNat := by omega
  constructor
  · intro hcancel
    rcases hres with hres | hres
    · simp only [checkConnectivityT, hres]
      rw [connectLoopT_allFail env _ hfail hcancel _ 0 none _ htoNat]
      refine ⟨?_, by simp, by simp⟩
      simp [Nat.zero_add]
    · simp only [checkConnectivityT, hres]
      rw [connectLoopT_allFail env _ hfail hcancel _ 0 none _ htoNat]
      refine ⟨?_, by simp, by simp⟩
      simp [Nat.zero_add]
  · intro j hj0 hjlt hj hbefore
    rcases hres with hres | hres
    · simp only [checkConnectivityT, hres]
      rw [connectLoopT_cancelAt_start env _ j hfail hj hbefore _ hj0 hjlt]
      exact ⟨rfl, rfl, rfl⟩
    · simp only [checkConnectivityT, hres]
      rw [connectLoopT_cancelAt_start env _ j hfail hj hbefore _ hj0 hjlt]
      exact ⟨rfl, rfl, rfl⟩

/-- C2 witness: three failing attempts against a dotted host. -/
theorem probe_allFail_attempts_witness :
    (0 : Int) < DefaultConfig.retryCount ∧
    (checkConnectivityT envFailDial infoW DefaultConfig).fst =
      some { serverInfo := infoW, isSuccess := false, error := refusedMsg,
             checkTime := 0, duration := 5 } ∧
    (checkConnectivityT envFailDial infoW DefaultConfig).snd.dials = 3 ∧
    (checkConnectivityT envFailDial infoW DefaultConfig).snd.waits = 2 := by
  have h := (probe_allFail_attempts envFailDial infoW DefaultConfig hostDotted
    (Or.inl rfl) (by decide) (fun _ => rfl)).1 (fun _ => rfl)
  exact ⟨by decide, h.1, h.2.1, h.2.2⟩

/-! ## C4 -/

/-- C4 counterexample: with RetryCount = 3 and a failing DNS lookup, the
probe returns immediately with the resolution error, executing zero connect
attempts — a resolution failure is terminal, not retried like a connection
failure, and resolution is not re-performed per attempt. -/
theorem resolution_failure_no_retry :
    (0 : Int) < DefaultConfig.retryCount ∧
    checkConnectivityT envFailDial infoNoDot DefaultConfig =
      (some { serverInfo := infoNoDot, isSuccess := false,
              error := "DNS解析失败: " ++ dnsErrMsg, checkTime := 0, duration := 0 },
       ⟨0, 0, 1⟩) ∧
    (checkConnectivityT envFailDial infoNoDot DefaultConfig).snd.dials = 0 := by
  exact ⟨by decide, rfl, rfl⟩

/-- C4 amended: within a single probe, host resolution is performed at most
once, before the retry loop; a resolution failure immediately terminates
the probe with the DNS error and no connect attempt or wait, rather than
being retried like a connection failure. -/
theorem resolution_once_and_terminal (env : Env) (info : ServerInfo) (config : Config) :
    (checkConnectivityT env info config).snd.lookups ≤ 1 ∧
    (∀ e, containsDot info.serverIP = false →
      env.lookupIP info.serverIP = Except.error e →
      checkConnectivityT env info config =
        (some { serverInfo := info, isSuccess := false,
                error := "DNS解析失败: " ++ e, checkTime := env.now, duration := 0 },
         ⟨0, 0, 1⟩)) := by
  constructor
  · cases hres : resolveHost env.lookupIP info.serverIP with
    | pass ip => simp [checkConnectivityT, hres, connectLoopT_lookups_zero]
    | resolved ip => simp [checkConnectivityT, hres, connectLoopT_lookups_zero]
    | failed msg => simp [checkConnectivityT, hres]
    | panicked => simp [checkConnectivityT, hres]
  · intro e hdot hlk
    have hres : resolveHost env.lookupIP info.serverIP =
        ResolveOutcome.failed ("DNS解析失败: " ++ e) := by
      simp [resolveHost, hdot, hlk]
    simp [checkConnectivityT, hres]

/-- C4 witness: a dotless host whose lookup fails under DefaultConfig. -/
theorem resolution_once_and_terminal_witness :
    (checkConnectivityT envFailDial infoNoDot DefaultConfig).snd.lookups ≤ 1 ∧
    checkConnectivityT envFailDial infoNoDot DefaultConfig =
      (some { serverInfo := infoNoDot, isSuccess := false,
              error := "DNS解析失败: " ++ dnsErrMsg, checkTime := 0, duration := 0 },
       ⟨0, 0, 1⟩) :=
  ⟨(resolution_once_and_terminal envFailDial infoNoDot DefaultConfig).1,
   (resolution_once_and_terminal envFailDial infoNoDot DefaultConfig).2
     dnsErrMsg rfl rfl⟩

/-! ## C10 -/

/-- C10: the Duration field of a returned CheckResult measures only the final
(or only) executed connect attempt — retry delays and earlier attempts are
not accumulated — and on a DNS resolution failure Duration is zero because
no connect attempt was timed. -/
theorem duration_measures_last_attempt (env : Env) (info : ServerInfo)
    (config : Config) (r : Option CheckResult) (t : ProbeTrace)
    (h : checkConnectivityT env info config = (r, t)) :
    (∀ msg, resolveHost env.lookupIP info.serverIP = ResolveOutcome.failed msg →
      t.dials = 0 ∧ ∀ cr, r = some cr → cr.duration = 0) ∧
    (∀ ip, (resolveHost env.lookupIP info.serverIP = ResolveOutcome.pass ip ∨
            resolveHost env.lookupIP info.serverIP = ResolveOutcome.resolved ip) →
      ∀ cr, r = some cr →
        (t.dials = 0 → cr.duration = 0) ∧
        (∀ k, t.dials = k + 1 →
          cr.duration = (env.dial (dialAddr ip info.serverPort) k).dur)) := by
  constructor
  · intro msg hres
    simp only [checkConnectivityT, hres, Prod.mk.injEq] at h
    obtain ⟨h1, h2⟩ := h
    refine ⟨by rw [← h2], ?_⟩
    intro cr hcr
    rw [← h1] at hcr
    have : cr = { serverInfo := info, isSuccess := false, error := msg,
                  checkTime := env.now, duration := 0 } := by
      simpa using hcr.symm
    rw [this]
  · intro ip hres cr hcr
    subst hcr
    rcases hres with hres | hres
    · simp only [checkConnectivityT, hres] at h
      simpa using connectLoopT_duration env (dialAddr ip info.serverPort) _ 0 none _ cr t h
    · simp only [checkConnectivityT, hres, Prod.mk.injEq] at h
      obtain ⟨h1, h2⟩ := h
      cases hq : connectLoopT env (dialAddr ip info.serverPort) 0
          config.retryCount.toNat none
          { serverInfo := info, isSuccess := false, error := "",
            checkTime := env.now, duration := 0 } with
      | mk f s =>
        rw [hq] at h1 h2
        simp only at h1 h2
        rw [h1] at hq
        have hd := connectLoopT_duration env (dialAddr ip info.serverPort) _ 0 none
          _ cr s hq
        have hts : t.dials = s.dials := by rw [← h2]
        rw [hts]
        simpa using hd

/-- C10 witness: three failing attempts; the result's duration is that of the
last dial. -/
theorem duration_measures_last_attempt_witness :
    resFail3.duration = (envFailDial.dial (dialAddr hostDotted infoW.serverPort) 2).dur ∧
    (checkConnectivityT envFailDial infoW DefaultConfig).fst = some resFail3 :=
  ⟨((duration_measures_last_attempt envFailDial infoW DefaultConfig
      (some resFail3) ⟨3, 2, 0⟩ rfl).2 hostDotted (Or.inl rfl) resFail3 rfl).2 2 rfl,
   rfl⟩

/-! ## C5 -/

/-- The invariant holds initially. -/
theorem schedInv_init (limit n : Nat) : schedInv limit n (schedInit n) := by
  refine ⟨by simp [schedInit], by simp [schedInit], by simp [schedInit], ?_⟩
  intro h
  simp [schedInit] at h

/-- Every scheduler step preserves the invariant. -/
theorem schedInv_step (limit n : Nat) (s t : SchedState)
    (hs : schedInv limit n s) (h : SchedStep limit n s t) : schedInv limit n t := by
  obtain ⟨h1, h2, h3, h4⟩ := hs
  cases h with
  | acquire g1 g2 =>
    refine ⟨by dsimp; omega, by dsimp; omega, by dsimp; omega, ?_⟩
    intro hc
    dsimp at hc ⊢
    have := h4 hc
    omega
  | send g =>
    refine ⟨by dsimp; omega, by dsimp; omega, by dsimp; omega, ?_⟩
    intro hc
    dsimp at hc ⊢
    have := h4 hc
    omega
  | release g =>
    refine ⟨by dsimp; omega, by dsimp; omega, by dsimp; omega, ?_⟩
    intro hc
    dsimp at hc ⊢
    have := h4 hc
    omega
  | wgdone g =>
    refine ⟨by dsimp; omega, by dsimp; omega, by dsimp; omega, ?_⟩
    intro hc
    dsimp at hc ⊢
    have := h4 hc
    omega
  | closeCh g1 g2 =>
    exact ⟨h1, h2, h3, fun _ => g1⟩

/-- The invariant holds in every reachable scheduler state. -/
theorem schedInv_reach (limit n : Nat) (s : SchedState)
    (h : Relation.ReflTransGen (SchedStep limit n) (schedInit n) s) :
    schedInv limit n s := by
  induction h with
  | refl => exact schedInv_init limit n
  | tail hab hbc ih => exact schedInv_step limit n _ _ ih hbc

/-- C5 amended: in part_000's scheduler, in every reachable state at most
concurrencyLimit goroutines hold a semaphore slot (and hence have a socket
attempt in flight), and the result channel is closed only after all n
launched goroutines have finished, at which point all n results have been
sent — but in checkip3.go's scheduler the analogous drain-terminates
property fails (see the deadlock counterexample). -/
theorem sem_bound_and_close_after_done (limit n : Nat) (s : SchedState)
    (h : Relation.ReflTransGen (SchedStep limit n) (schedInit n) s) :
    s.inProbe + s.afterSend ≤ limit ∧
    (s.closed = true → s.finished = n ∧ s.resultsSent = n) := by
  obtain ⟨h1, h2, h3, h4⟩ := schedInv_reach limit n s h
  refine ⟨h2, fun hc => ⟨h4 hc, ?_⟩⟩
  have := h4 hc
  omega

/-- C5 witness: the state after one acquire step with limit 1 and one
goroutine. -/
theorem sem_bound_and_close_after_done_witness :
    schedAfterAcquire.inProbe + schedAfterAcquire.afterSend ≤ 1 ∧
    (schedAfterAcquire.closed = true →
      schedAfterAcquire.finished = 1 ∧ schedAfterAcquire.resultsSent = 1) :=
  sem_bound_and_close_after_done 1 1 schedAfterAcquire
    (Relation.ReflTransGen.single
      (SchedStep.acquire (schedInit 1) (by decide) (by decide)))

/-- A stuck pool state admits no step. -/
theorem pool3Stuck_no_step (limit n : Nat) (s t : Pool3State)
    (h : pool3Stuck limit n s) : ¬ Pool3Step limit n s t := by
  intro hstep
  obtain ⟨h1, h2, h3, h4⟩ := h
  cases hstep with
  | dispatch g1 g2 g3 => exact h1 ⟨g1, g2, g3⟩
  | beginDrain g1 g2 => exact h2 ⟨g1, g2⟩
  | deliver g1 g2 g3 => exact h3 ⟨g1, g2, g3⟩
  | closeCh g1 g2 g3 => exact h4 ⟨g1, g2, g3⟩

/-- C5 counterexample: in checkip3.go's scheduler with concurrencyLimit 1 and
2 records (with the hardcoded limit 10 the same run needs 11 records), the
run reaches a state — after one dispatch — in which no transition is
enabled: the dispatch loop blocks on the semaphore while the only running
goroutine blocks sending on the unbuffered result channel that main is not
yet draining.  The channel is never closed, no result is ever received, and
the drain loop never runs, so it does not terminate having seen all
results. -/
theorem pool3_deadlock_reachable :
    Relation.ReflTransGen (Pool3Step 1 2) (pool3Init 2) pool3Dead ∧
    pool3Stuck 1 2 pool3Dead ∧
    pool3Dead.received = 0 ∧ pool3Dead.closed = false := by
  refine ⟨?_, by decide, rfl, rfl⟩
  exact Relation.ReflTransGen.single
    (Pool3Step.dispatch (pool3Init 2) rfl (by decide) (by decide))

end Checkip
